import Mathlib

/-!
Shallow embedding of the sizing engine of `gpu-sizer-api`
(`src/sizing_logic.py`, with the error-check tail of
`src/main.py::recommend_gpu`), and theorems settling the frozen claims
about it.

Conventions of the embedding:
* Python numbers are modelled as `ℤ` (ints) and `ℚ` (floats); float
  arithmetic is treated as exact rational arithmetic.  Non-finite floats
  (`nan`, `inf`) are represented by the `PyVal.pspecial` constructor and
  never carry a rational value.
* Python values that can appear in a config / catalog dictionary are
  modelled by the inductive type `PyVal`; dictionaries are association
  lists with first-match lookup (Python dicts have unique keys, so
  first-match lookup agrees with dict lookup).
* Code that can raise is modelled with `Except String`; the error string
  names the Python exception.
* `round(x, 2)` is modelled by `pyRound2`; Python rounds ties to even,
  the model rounds ties up.  No claim depends on the tie case.
-/

/-- A Python runtime value, as far as the sizing engine inspects values:
`None`, booleans, ints, finite floats, non-finite floats (`pspecial` holds
the textual form, e.g. "nan"), strings, dicts and lists. -/
inductive PyVal where
  | pnone
  | pbool (b : Bool)
  | pint (n : ℤ)
  | pfloat (q : ℚ)
  | pspecial (s : String)
  | pstr (s : String)
  | pdict (entries : List (String × PyVal))
  | plist (elems : List PyVal)

/-- Entries of a Python dict (association list, first match wins). -/
abbrev Entries := List (String × PyVal)

/-- Python truthiness (`bool(v)`) for the values the engine tests.
Non-finite floats are truthy. -/
def pyFalsy : PyVal → Bool
  | .pnone => true
  | .pbool b => !b
  | .pint n => n = 0
  | .pfloat q => q = 0
  | .pspecial _ => false
  | .pstr s => s = ""
  | .pdict es => es.isEmpty
  | .plist vs => vs.isEmpty

/-- Is the character an ASCII digit? -/
def isDigitCh (c : Char) : Bool := '0' ≤ c ∧ c ≤ '9'

/-- Digits of a char list read as a natural number (most significant first). -/
def digitsToNat (acc : ℕ) : List Char → ℕ
  | [] => acc
  | c :: rest => digitsToNat (10 * acc + (c.toNat - '0'.toNat)) rest

/-- Take the longest digit run at the front. Returns (digits, rest). -/
def takeDigits : List Char → List Char × List Char
  | [] => ([], [])
  | c :: rest =>
    if isDigitCh c then
      let (ds, r) := takeDigits rest
      (c :: ds, r)
    else ([], c :: rest)

/-- Parse an optional exponent part `[eE][+-]?digits` of a float literal.
Returns the exponent and the remaining characters, or `none` if an `e` is
present but malformed. -/
def parseExpPart : List Char → Option (ℤ × List Char)
  | c :: rest =>
    if c = 'e' ∨ c = 'E' then
      match rest with
      | '+' :: r2 =>
        match takeDigits r2 with
        | ([], _) => none
        | (ds, r3) => some ((digitsToNat 0 ds : ℤ), r3)
      | '-' :: r2 =>
        match takeDigits r2 with
        | ([], _) => none
        | (ds, r3) => some (-(digitsToNat 0 ds : ℤ), r3)
      | r2 =>
        match takeDigits r2 with
        | ([], _) => none
        | (ds, r3) => some ((digitsToNat 0 ds : ℤ), r3)
    else some (0, c :: rest)
  | [] => some (0, [])

/-- Scale a rational by a power of ten (the exponent of a float literal). -/
def scalePow10 (q : ℚ) (e : ℤ) : ℚ :=
  if 0 ≤ e then q * (10 : ℚ) ^ e.toNat else q / (10 : ℚ) ^ (-e).toNat

/-- Parse the unsigned body `digits[.digits][exp]` / `.digits[exp]` of a
float literal; whole input must be consumed. -/
def parseUnsignedFloat (cs : List Char) : Option ℚ :=
  let (ip, r1) := takeDigits cs
  match r1 with
  | '.' :: r2 =>
    let (fp, r3) := takeDigits r2
    if ip.isEmpty ∧ fp.isEmpty then none
    else
      match parseExpPart r3 with
      | some (e, []) =>
        let mant : ℚ := (digitsToNat 0 (ip ++ fp) : ℚ)
        some (scalePow10 mant (e - fp.length))
      | _ => none
  | _ =>
    if ip.isEmpty then none
    else
      match parseExpPart r1 with
      | some (e, []) => some (scalePow10 (digitsToNat 0 ip : ℚ) e)
      | _ => none

/-- Strip ASCII space characters from both ends of a char list. -/
def stripWsChars (cs : List Char) : List Char :=
  let isWs : Char → Bool := fun c => c = ' ' ∨ c = '\t' ∨ c = '\n' ∨ c = '\r'
  (cs.dropWhile isWs).reverse.dropWhile isWs |>.reverse

/-- Python `float(s)` on a string, restricted to finite results: optional
sign and a decimal/scientific literal.  `inf`/`nan` literals and malformed
strings both give `none` (the engine only ever feeds the result to
`_num`, which maps non-finite floats to `None` anyway). -/
def strFloat? (s : String) : Option ℚ :=
  match stripWsChars s.toList with
  | '+' :: rest => parseUnsignedFloat rest
  | '-' :: rest => (parseUnsignedFloat rest).map Neg.neg
  | cs => parseUnsignedFloat cs

/-- Python `float(v)` restricted to finite results, `none` when the call
raises.  Divergence (harmless to every claim): `float` of a non-finite
float or of the strings "inf"/"nan" returns a non-finite float in Python;
here those are `none`. -/
def pyFloat? : PyVal → Option ℚ
  | .pint n => some (n : ℚ)
  | .pfloat q => some q
  | .pbool b => some (if b then 1 else 0)
  | .pstr s => strFloat? s
  | _ => none

/-- Embedding of `src/sizing_logic.py::estimate_kv_cache_gb`.  Arguments in source
order; ints per the source annotations; `head_dim` optional.  Python's
`//` is floor division, hence `Int.fdiv`. -/
def estimate_kv_cache_gb (num_layers num_attention_heads hidden_size seq_len
    dtype_bytes : ℤ) (head_dim : Option ℤ) : Option ℚ :=
  -- `if not (num_layers and num_attention_heads and hidden_size and seq_len and dtype_bytes)`
  if num_layers = 0 ∨ num_attention_heads = 0 ∨ hidden_size = 0 ∨ seq_len = 0 ∨
      dtype_bytes = 0 then
    none
  else
    match head_dim with
    | some hd =>
      some (((num_layers * seq_len * num_attention_heads * hd * 2 * dtype_bytes : ℤ) : ℚ)
        / 2 ^ 30)
    | none =>
      -- dead re-check kept from the source (`if num_attention_heads == 0`)
      if num_attention_heads = 0 then none
      else
        let hd := hidden_size.fdiv num_attention_heads
        if hd ≤ 0 then none
        else
          some (((num_layers * seq_len * num_attention_heads * hd * 2 * dtype_bytes : ℤ) : ℚ)
            / 2 ^ 30)

/-- C6 counterexample: an explicitly supplied `head_dim = 0` "resolves to
≤ 0", yet the code returns `0.0` rather than the `None` sentinel — the
`head_dim <= 0` rejection only runs on the derivation branch. -/
theorem c6_counterexample :
    estimate_kv_cache_gb 1 1 1 1 2 (some 0) = some 0 := by
  norm_num [estimate_kv_cache_gb]

/-- C6 (amended): with every required input (layers, kv heads, hidden
size, seq len, byte width) nonzero, the estimate is
`layers * seq_len * kv_heads * head_dim * 2 * byte_width / 2^30` GiB where
a supplied `head_dim` is used as-is, and an omitted `head_dim` is derived
as `hidden_size // kv_heads` (floor division) and must be positive — a
non-positive derived value gives `none`; the estimate is `none` whenever
any required input is zero.  (A supplied `head_dim ≤ 0` is not rejected.) -/
theorem c6_amended_kv_formula (num_layers num_attention_heads hidden_size seq_len
    dtype_bytes : ℤ) (head_dim : Option ℤ) :
    ((num_layers = 0 ∨ num_attention_heads = 0 ∨ hidden_size = 0 ∨ seq_len = 0 ∨
        dtype_bytes = 0) →
      estimate_kv_cache_gb num_layers num_attention_heads hidden_size seq_len
        dtype_bytes head_dim = none) ∧
    (num_layers ≠ 0 → num_attention_heads ≠ 0 → hidden_size ≠ 0 → seq_len ≠ 0 →
      dtype_bytes ≠ 0 →
      (∀ hd, head_dim = some hd →
        estimate_kv_cache_gb num_layers num_attention_heads hidden_size seq_len
          dtype_bytes head_dim =
          some (((num_layers * seq_len * num_attention_heads * hd * 2 * dtype_bytes : ℤ) : ℚ)
            / 2 ^ 30)) ∧
      (head_dim = none →
        (hidden_size.fdiv num_attention_heads ≤ 0 →
          estimate_kv_cache_gb num_layers num_attention_heads hidden_size seq_len
            dtype_bytes head_dim = none) ∧
        (0 < hidden_size.fdiv num_attention_heads →
          estimate_kv_cache_gb num_layers num_attention_heads hidden_size seq_len
            dtype_bytes head_dim =
          some (((num_layers * seq_len * num_attention_heads *
              hidden_size.fdiv num_attention_heads * 2 * dtype_bytes : ℤ) : ℚ) / 2 ^ 30)))) := by
  refine ⟨fun h => ?_, fun h1 h2 h3 h4 h5 => ⟨fun hd hhd => ?_, fun hhd => ⟨fun hle => ?_, fun hpos => ?_⟩⟩⟩
  · simp only [estimate_kv_cache_gb, if_pos h]
  · subst hhd
    simp only [estimate_kv_cache_gb]
    rw [if_neg (by tauto)]
  · subst hhd
    simp only [estimate_kv_cache_gb]
    rw [if_neg (by tauto)]
    simp only [if_neg h2, if_pos hle]
  · subst hhd
    simp only [estimate_kv_cache_gb]
    rw [if_neg (by tauto)]
    simp only [if_neg h2, if_neg (not_le.mpr hpos)]

/-- C6 witness: the amended characterization at concrete inputs
(layers 2, kv heads 4, hidden 64, seq 8, bytes 2, head_dim omitted):
the derived head_dim is 16 and the estimate is 2*8*4*16*2*2/2^30 GiB. -/
theorem c6_witness :
    estimate_kv_cache_gb 2 4 64 8 2 none = some ((4096 : ℚ) / 2 ^ 30) := by
  have h := (c6_amended_kv_formula 2 4 64 8 2 none).2 (by norm_num) (by norm_num)
    (by norm_num) (by norm_num) (by norm_num)
  have h2 := (h.2 rfl).2 (by decide)
  rw [show Int.fdiv 64 4 = 16 from by decide] at h2
  rw [h2]
  norm_num

/-- C7 counterexample: with `head_dim` omitted (= derived from
`hidden_size`), doubling the kv-head count does not double the estimate:
at layers 1, heads 2, hidden 4, seq 1, bytes 2 the estimate is 16/2^30
GiB, and with heads 4 it is unchanged (derived head_dim halves). -/
theorem c7_counterexample :
    estimate_kv_cache_gb 1 2 4 1 2 none = some ((16 : ℚ) / 2 ^ 30) ∧
    estimate_kv_cache_gb 1 4 4 1 2 none = some ((16 : ℚ) / 2 ^ 30) ∧
    ((16 : ℚ) / 2 ^ 30) ≠ 2 * ((16 : ℚ) / 2 ^ 30) := by
  refine ⟨?_, ?_, by norm_num⟩
  · norm_num [estimate_kv_cache_gb, Int.fdiv]
  · norm_num [estimate_kv_cache_gb, Int.fdiv]

/-- C7 (amended): on any inputs where the estimate is defined, doubling
`num_layers` or `seq_len` exactly doubles the estimate, and doubling the
kv-head count doubles the estimate provided `head_dim` is supplied
explicitly (when `head_dim` is derived from `hidden_size` the doubling
law fails, see the counterexample). -/
theorem c7_amended_kv_doubling (num_layers num_attention_heads hidden_size seq_len
    dtype_bytes : ℤ) (head_dim : Option ℤ) (v : ℚ)
    (h : estimate_kv_cache_gb num_layers num_attention_heads hidden_size seq_len
      dtype_bytes head_dim = some v) :
    estimate_kv_cache_gb (2 * num_layers) num_attention_heads hidden_size seq_len
      dtype_bytes head_dim = some (2 * v) ∧
    estimate_kv_cache_gb num_layers num_attention_heads hidden_size (2 * seq_len)
      dtype_bytes head_dim = some (2 * v) ∧
    (∀ hd, head_dim = some hd →
      estimate_kv_cache_gb num_layers (2 * num_attention_heads) hidden_size seq_len
        dtype_bytes head_dim = some (2 * v)) := by
  have hguard : ¬(num_layers = 0 ∨ num_attention_heads = 0 ∨ hidden_size = 0 ∨
      seq_len = 0 ∨ dtype_bytes = 0) := by
    intro hg
    simp only [estimate_kv_cache_gb, if_pos hg] at h
    exact Option.noConfusion h
  have hL : num_layers ≠ 0 := by tauto
  have hH : num_attention_heads ≠ 0 := by tauto
  have hhid : hidden_size ≠ 0 := by tauto
  have hS : seq_len ≠ 0 := by tauto
  have hB : dtype_bytes ≠ 0 := by tauto
  have hguardL : ¬(2 * num_layers = 0 ∨ num_attention_heads = 0 ∨ hidden_size = 0 ∨
      seq_len = 0 ∨ dtype_bytes = 0) := by
    push_neg
    exact ⟨mul_ne_zero two_ne_zero hL, hH, hhid, hS, hB⟩
  have hguardS : ¬(num_layers = 0 ∨ num_attention_heads = 0 ∨ hidden_size = 0 ∨
      2 * seq_len = 0 ∨ dtype_bytes = 0) := by
    push_neg
    exact ⟨hL, hH, hhid, mul_ne_zero two_ne_zero hS, hB⟩
  have hguardH : ¬(num_layers = 0 ∨ 2 * num_attention_heads = 0 ∨ hidden_size = 0 ∨
      seq_len = 0 ∨ dtype_bytes = 0) := by
    push_neg
    exact ⟨hL, mul_ne_zero two_ne_zero hH, hhid, hS, hB⟩
  refine ⟨?_, ?_, ?_⟩
  · cases hdm : head_dim with
    | some hd =>
      rw [hdm] at h
      simp only [estimate_kv_cache_gb, if_neg hguard] at h
      simp only [estimate_kv_cache_gb, if_neg hguardL]
      injection h with h
      rw [← h]
      congr 1
      push_cast
      ring
    | none =>
      rw [hdm] at h
      simp only [estimate_kv_cache_gb, if_neg hguard, if_neg hH] at h
      by_cases hdp : hidden_size.fdiv num_attention_heads ≤ 0
      · simp only [if_pos hdp] at h
        exact Option.noConfusion h
      · simp only [if_neg hdp] at h
        simp only [estimate_kv_cache_gb, if_neg hguardL, if_neg hH, if_neg hdp]
        injection h with h
        rw [← h]
        congr 1
        push_cast
        ring
  · cases hdm : head_dim with
    | some hd =>
      rw [hdm] at h
      simp only [estimate_kv_cache_gb, if_neg hguard] at h
      simp only [estimate_kv_cache_gb, if_neg hguardS]
      injection h with h
      rw [← h]
      congr 1
      push_cast
      ring
    | none =>
      rw [hdm] at h
      simp only [estimate_kv_cache_gb, if_neg hguard, if_neg hH] at h
      by_cases hdp : hidden_size.fdiv num_attention_heads ≤ 0
      · simp only [if_pos hdp] at h
        exact Option.noConfusion h
      · simp only [if_neg hdp] at h
        simp only [estimate_kv_cache_gb, if_neg hguardS, if_neg hH, if_neg hdp]
        injection h with h
        rw [← h]
        congr 1
        push_cast
        ring
  · intro hd hdm
    rw [hdm] at h ⊢
    simp only [estimate_kv_cache_gb, if_neg hguard] at h
    simp only [estimate_kv_cache_gb, if_neg hguardH]
    injection h with h
    rw [← h]
    congr 1
    push_cast
    ring

/-- C7 witness: doubling layers from 2 to 4 (heads 4, hidden 64, seq 8,
bytes 2, head_dim omitted) doubles the estimate. -/
theorem c7_witness :
    estimate_kv_cache_gb (2 * 2) 4 64 8 2 none = some (2 * ((4096 : ℚ) / 2 ^ 30)) := by
  have h0 : estimate_kv_cache_gb 2 4 64 8 2 none = some ((4096 : ℚ) / 2 ^ 30) := by
    norm_num [estimate_kv_cache_gb, Int.fdiv]
  exact (c7_amended_kv_doubling 2 4 64 8 2 none _ h0).1

/-- The message of the `TypeError` that `get_effective_kv_cache` triggers:
both of its calls to `estimate_kv_cache_gb` pass a keyword argument
`users=users`, but the keyword-only signature of `estimate_kv_cache_gb`
has no `users` parameter, so the call raises before the estimator body
runs. -/
def typeErrorUsers : String :=
  "TypeError: estimate_kv_cache_gb got an unexpected keyword argument users"

/-- The stored-value scan of `get_effective_kv_cache`: the first of the
keys `kv_cache_fp16_gb`, `kv_cache_bf16_gb`, `kv_cache_fp32_gb` whose
value is present, not `None`, converts with `float(...)`, and is `> 0`.
A value that fails conversion (`except: continue`) or is `≤ 0` (no
`return` taken) falls through to the next key. -/
def storedKv (model_info : Entries) : Option ℚ :=
  ["kv_cache_fp16_gb", "kv_cache_bf16_gb", "kv_cache_fp32_gb"].findSome? fun k =>
    match List.lookup k model_info with
    | some v =>
      match v with
      | .pnone => none
      | _ =>
        match pyFloat? v with
        | some val => if 0 < val then some val else none
        | none => none
    | none => none

/-- Embedding of `src/sizing_logic.py::get_effective_kv_cache`.  The override, if
convertible with `float`, wins; a failing conversion is swallowed
(`except: pass`).  Both the forced-recalculation branch and the final
fallback call `estimate_kv_cache_gb(..., users=users)`, which raises
`TypeError` (see `typeErrorUsers`); `seq_len`, `dtype_bytes` and `users`
are therefore never consumed.  A positive stored KV value short-circuits
the broken fallback. -/
def get_effective_kv_cache (model_info : Entries) (seq_len : Option ℤ)
    (dtype_bytes : ℤ) (users : ℤ) (kv_cache_override : Option PyVal)
    (force_recalc_kv : Bool) : Except String (Option ℚ) :=
  let rest : Except String (Option ℚ) :=
    if force_recalc_kv then .error typeErrorUsers
    else
      match storedKv model_info with
      | some val => .ok (some val)
      | none => .error typeErrorUsers
  match kv_cache_override with
  | some ov =>
    match pyFloat? ov with
    | some q => .ok (some q)
    | none => rest
  | none => rest

/-- A catalog entry: a Python dict. -/
abbrev Gpu := Entries

/-- A Python value compared against a float (`>=`, and the sort key):
ints, floats and bools compare; any other value raises `TypeError`.
(A non-finite float would compare fine in Python; `pspecial` carries no
rational, so it is also mapped to the error — no claim exercises it.
Python's sort only compares keys when the list has two or more elements;
here a lone non-numeric key is already an error.) -/
def gpuNum? : PyVal → Option ℚ
  | .pint n => some (n : ℚ)
  | .pfloat q => some q
  | .pbool b => some (if b then 1 else 0)
  | _ => none

/-- Lookup `gpu.get("VRAM (GB)", default)` followed by use as a number. -/
def gpuVram (g : Gpu) (default : ℤ) : Except String ℚ :=
  match List.lookup "VRAM (GB)" g with
  | none => .ok (default : ℚ)
  | some v =>
    match gpuNum? v with
    | some q => .ok q
    | none => .error "TypeError: VRAM value not comparable with float"

/-- The list comprehension filtering eligible GPUs:
`[gpu for gpu in gpus if gpu.get("VRAM (GB)", 0) >= kv_cache_gb]`. -/
def filterEligible : List Gpu → ℚ → Except String (List Gpu)
  | [], _ => .ok []
  | g :: rest, kv =>
    match gpuVram g 0 with
    | .error e => .error e
    | .ok v =>
      match filterEligible rest kv with
      | .error e => .error e
      | .ok tail => .ok (if kv ≤ v then g :: tail else tail)

/-- Pair each GPU with its sort key `gpu.get("VRAM (GB)", 9999)`. -/
def keyGpus : List Gpu → Except String (List (ℚ × Gpu))
  | [] => .ok []
  | g :: rest =>
    match gpuVram g 9999 with
    | .error e => .error e
    | .ok k =>
      match keyGpus rest with
      | .error e => .error e
      | .ok tail => .ok ((k, g) :: tail)

/-- Sort-key order: ascending VRAM. -/
def keyLe (a b : ℚ × Gpu) : Prop := a.1 ≤ b.1

instance : DecidableRel keyLe := fun a b => inferInstanceAs (Decidable (a.1 ≤ b.1))

/-- The sort `eligible_gpus.sort(key=lambda x: x.get("VRAM (GB)", 9999))`.
Python's sort is stable; `List.insertionSort` with the reflexive total
key order is stable too, so the two agree. -/
def sortGpus (gpus : List Gpu) : Except String (List Gpu) :=
  match keyGpus gpus with
  | .error e => .error e
  | .ok keyed => .ok ((List.insertionSort keyLe keyed).map Prod.snd)

/-- The success dict built by `get_gpu_recommendation`. -/
structure RecOutput where
  recommended : Gpu
  alternatives : List Gpu
  required_vram : ℚ
  kv_cache_fp16_gb : ℚ
  users : ℤ
  latency : ℚ

/-- Result of `get_gpu_recommendation`: either a dict with an `error` key or
the success dict. -/
inductive RecResult where
  | error (msg : String)
  | ok (out : RecOutput)

/-- The tail of `get_gpu_recommendation` after the sort:
`recommended = eligible_gpus[0]`, `alternatives = eligible_gpus[1:]`, and
the result dict.  Indexing an empty list raises (never reached: the
emptiness check ran before the sort). -/
def pickRecommendation (sorted : List Gpu) (kv : ℚ) (users : ℤ) (latency : ℚ) :
    Except String RecResult :=
  match sorted with
  | [] => .error "IndexError: list index out of range"
  | best :: alts =>
    .ok (.ok { recommended := best, alternatives := alts,
               required_vram := kv, kv_cache_fp16_gb := kv,
               users := users, latency := latency })

/-- Embedding of `src/sizing_logic.py::get_gpu_recommendation`.  The `latency`
argument is only echoed into the result; no latency/concurrency check
exists.  Eligibility is `VRAM (GB) >= kv_cache_gb` alone (per-user KV
cache; weights and user count play no role), the recommendation is the
lowest-VRAM eligible GPU and the alternatives are all remaining eligible
GPUs. -/
def get_gpu_recommendation (model_info : Entries) (gpus : List Gpu) (users : ℤ)
    (latency : ℚ) (kv_cache_override : Option PyVal) (force_recalc_kv : Bool) :
    Except String RecResult :=
  match get_effective_kv_cache model_info none 2 users kv_cache_override force_recalc_kv with
  | .error e => .error e
  | .ok none => .ok (.error "Missing or invalid KV cache size for model.")
  | .ok (some kv) =>
    if kv = 0 then .ok (.error "Missing or invalid KV cache size for model.")
    else
      match filterEligible gpus kv with
      | .error e => .error e
      | .ok eligible =>
        if eligible.isEmpty then .ok (.error "No suitable GPU found.")
        else
          match sortGpus eligible with
          | .error e => .error e
          | .ok sorted => pickRecommendation sorted kv users latency

/-- The error-check tail of `src/main.py::recommend_gpu` (lines
110-112): a result dict carrying an `error` key is converted into an
HTTP 400 exception; otherwise the dict is returned to the client. -/
def recommend_gpu_result : RecResult → Except (ℕ × String) RecOutput
  | .error msg => .error (400, msg)
  | .ok out => .ok out

/-- Modelled from the spec: the capacity/concurrency translator
`effective_concurrency(base_latency_s, latency_target_ms)` of spec §4.3
is missing from `src/` — the shipped `get_gpu_recommendation` accepts a
`latency` argument but only echoes it back, and no base-latency field
exists in the code's model records.  Per the spec: the target in seconds
is `latency_target_ms / 1000`; strictly below `base_latency_s` the call
fails with the invalid-target error; otherwise one device serves
`max(1, floor(target_s / base_latency_s))` concurrent requests. -/
def effective_concurrency (base_latency_s latency_target_ms : ℚ) :
    Except String ℤ :=
  let target_s := latency_target_ms / 1000
  if target_s < base_latency_s then .error "invalid-target"
  else .ok (max 1 ⌊target_s / base_latency_s⌋)

/-- Modelled from the spec: `required_device_count =
ceil(users / requests_per_device)` (spec §4.3). -/
def required_device_count (users requests_per_device : ℤ) : ℤ :=
  ⌈(users : ℚ) / (requests_per_device : ℚ)⌉

/-- A member of the eligible list passed the VRAM filter. -/
theorem filterEligible_mem : ∀ {gpus : List Gpu} {kv : ℚ} {l : List Gpu},
    filterEligible gpus kv = .ok l → ∀ {g : Gpu}, g ∈ l →
    ∃ v, gpuVram g 0 = .ok v ∧ kv ≤ v := by
  intro gpus
  induction gpus with
  | nil =>
    intro kv l h g hg
    simp only [filterEligible, Except.ok.injEq] at h
    subst h
    cases hg
  | cons a rest ih =>
    intro kv l h g hg
    simp only [filterEligible] at h
    cases hv : gpuVram a 0 with
    | error e => simp [hv] at h
    | ok v =>
      rw [hv] at h
      cases ht : filterEligible rest kv with
      | error e => simp [ht] at h
      | ok tail =>
        rw [ht] at h
        simp only [Except.ok.injEq] at h
        subst h
        by_cases hle : kv ≤ v
        · rw [if_pos hle] at hg
          rcases List.mem_cons.mp hg with rfl | hgt
          · exact ⟨v, hv, hle⟩
          · exact ih ht hgt
        · rw [if_neg hle] at hg
          exact ih ht hg

/-- The eligible list is a sublist of the catalog. -/
theorem filterEligible_sublist : ∀ {gpus : List Gpu} {kv : ℚ} {l : List Gpu},
    filterEligible gpus kv = .ok l → l.Sublist gpus := by
  intro gpus
  induction gpus with
  | nil =>
    intro kv l h
    simp only [filterEligible, Except.ok.injEq] at h
    subst h
    exact List.Sublist.refl _
  | cons a rest ih =>
    intro kv l h
    simp only [filterEligible] at h
    cases hv : gpuVram a 0 with
    | error e => simp [hv] at h
    | ok v =>
      rw [hv] at h
      cases ht : filterEligible rest kv with
      | error e => simp [ht] at h
      | ok tail =>
        rw [ht] at h
        simp only [Except.ok.injEq] at h
        subst h
        by_cases hle : kv ≤ v
        · rw [if_pos hle]
          exact List.Sublist.cons₂ a (ih ht)
        · rw [if_neg hle]
          exact List.Sublist.cons a (ih ht)

/-- Keying GPUs for the sort keeps the GPUs (second components). -/
theorem keyGpus_map_snd : ∀ {gpus : List Gpu} {kl : List (ℚ × Gpu)},
    keyGpus gpus = .ok kl → kl.map Prod.snd = gpus := by
  intro gpus
  induction gpus with
  | nil =>
    intro kl h
    simp only [keyGpus, Except.ok.injEq] at h
    subst h
    rfl
  | cons a rest ih =>
    intro kl h
    simp only [keyGpus] at h
    cases hv : gpuVram a 9999 with
    | error e => simp [hv] at h
    | ok k =>
      rw [hv] at h
      cases ht : keyGpus rest with
      | error e => simp [ht] at h
      | ok tail =>
        rw [ht] at h
        simp only [Except.ok.injEq] at h
        subst h
        simp only [List.map_cons, ih ht]

/-- The sorted list is a permutation of its input. -/
theorem sortGpus_perm {gpus s : List Gpu} (h : sortGpus gpus = .ok s) :
    s.Perm gpus := by
  simp only [sortGpus] at h
  cases hk : keyGpus gpus with
  | error e => simp [hk] at h
  | ok kl =>
    rw [hk] at h
    simp only [Except.ok.injEq] at h
    subst h
    have hp := (List.perm_insertionSort keyLe kl).map Prod.snd
    rw [keyGpus_map_snd hk] at hp
    exact hp

/-- Inversion of a successful run of `get_gpu_recommendation`: the output
record is built from the head and tail of the sorted eligible list, with
`required_vram` the (nonzero) effective KV value. -/
theorem get_gpu_recommendation_ok_inv {model_info : Entries} {gpus : List Gpu}
    {users : ℤ} {latency : ℚ} {ov : Option PyVal} {frc : Bool} {out : RecOutput}
    (h : get_gpu_recommendation model_info gpus users latency ov frc = .ok (.ok out)) :
    ∃ eligible sorted,
      filterEligible gpus out.required_vram = .ok eligible ∧
      sortGpus eligible = .ok sorted ∧
      sorted = out.recommended :: out.alternatives ∧
      out.required_vram ≠ 0 ∧
      get_effective_kv_cache model_info none 2 users ov frc = .ok (some out.required_vram) := by
  unfold get_gpu_recommendation at h
  cases heff : get_effective_kv_cache model_info none 2 users ov frc with
  | error e =>
    rw [heff] at h
    exact Except.noConfusion h
  | ok kvo =>
    rw [heff] at h
    cases kvo with
    | none =>
      have h3 : RecResult.error "Missing or invalid KV cache size for model." = RecResult.ok out :=
        Except.ok.inj h
      exact RecResult.noConfusion h3
    | some kv =>
      have h2 : (if kv = 0 then
          Except.ok (RecResult.error "Missing or invalid KV cache size for model.")
          else
            match filterEligible gpus kv with
            | .error e => .error e
            | .ok eligible =>
              if eligible.isEmpty then .ok (.error "No suitable GPU found.")
              else
                match sortGpus eligible with
                | .error e => .error e
                | .ok sorted => pickRecommendation sorted kv users latency)
          = .ok (.ok out) := h
      by_cases h0 : kv = 0
      · rw [if_pos h0] at h2
        exact RecResult.noConfusion (Except.ok.inj h2)
      · rw [if_neg h0] at h2
        cases helig : filterEligible gpus kv with
        | error e =>
          rw [helig] at h2
          exact Except.noConfusion h2
        | ok elig =>
          rw [helig] at h2
          have h3 : (if elig.isEmpty then
              Except.ok (RecResult.error "No suitable GPU found.")
              else
                match sortGpus elig with
                | .error e => .error e
                | .ok sorted => pickRecommendation sorted kv users latency)
              = .ok (.ok out) := h2
          by_cases hemp : elig.isEmpty
          · rw [if_pos hemp] at h3
            exact RecResult.noConfusion (Except.ok.inj h3)
          · rw [if_neg hemp] at h3
            cases hsort : sortGpus elig with
            | error e =>
              rw [hsort] at h3
              exact Except.noConfusion h3
            | ok srt =>
              rw [hsort] at h3
              have h4 : pickRecommendation srt kv users latency = .ok (.ok out) := h3
              cases srt with
              | nil => exact Except.noConfusion h4
              | cons best alts =>
                have h5 : RecResult.ok
                    { recommended := best, alternatives := alts,
                      required_vram := kv, kv_cache_fp16_gb := kv,
                      users := users, latency := latency } = RecResult.ok out :=
                  Except.ok.inj h4
                have h6 := RecResult.ok.inj h5
                have hrv : out.required_vram = kv := by rw [← h6]
                refine ⟨elig, best :: alts, ?_, hsort, ?_, ?_, ?_⟩
                · rw [hrv]
                  exact helig
                · rw [← h6]
                · rw [hrv]
                  exact h0
                · rw [hrv]

/-- C2 counterexample: with a stored weight footprint of 40 GiB, a
KV-override of 2 GiB/user and 5 users (total demand 40 + 2*5 = 50 GiB
per the claim), the code recommends a 4-GiB device: eligibility compares
capacity only against the per-user KV value 2, ignoring both the weight
footprint and the user count. -/
theorem c2_counterexample :
    get_gpu_recommendation
        [("model_id", PyVal.pstr "m"), ("minimal_gpu_memory_gb", PyVal.pfloat 40)]
        [[("GPU", PyVal.pstr "small"), ("VRAM (GB)", PyVal.pint 4)]]
        5 1000 (some (PyVal.pfloat 2)) false
      = .ok (.ok { recommended := [("GPU", PyVal.pstr "small"), ("VRAM (GB)", PyVal.pint 4)],
                   alternatives := [], required_vram := 2, kv_cache_fp16_gb := 2,
                   users := 5, latency := 1000 }) ∧
    List.lookup "VRAM (GB)" [("GPU", PyVal.pstr "small"), ("VRAM (GB)", PyVal.pint 4)]
      = some (PyVal.pint 4) ∧
    (4 : ℚ) < 40 + 2 * 5 :=
  ⟨rfl, rfl, by norm_num⟩

/-- C2 (amended): for every successful recommendation, the recommended
device's `VRAM (GB)` value (defaulting to 0 when absent) is a number and
is at least `required_vram`, the effective per-user KV-cache value — the
only memory demand the code enforces; weight footprint and user count
play no role. -/
theorem c2_amended_vram_lower_bound (model_info : Entries) (gpus : List Gpu)
    (users : ℤ) (latency : ℚ) (ov : Option PyVal) (frc : Bool) (out : RecOutput)
    (h : get_gpu_recommendation model_info gpus users latency ov frc = .ok (.ok out)) :
    ∃ v, gpuVram out.recommended 0 = .ok v ∧ out.required_vram ≤ v := by
  obtain ⟨elig, srt, helig, hsort, hcons, -, -⟩ := get_gpu_recommendation_ok_inv h
  have hperm := sortGpus_perm hsort
  have hmem : out.recommended ∈ srt := by
    rw [hcons]
    exact List.mem_cons_self _ _
  exact filterEligible_mem helig (hperm.mem_iff.mp hmem)

/-- C2 witness: stored KV 3 GiB/user, one 80-GiB device, 2 users — the
recommended device's VRAM (80) is at least the required 3. -/
theorem c2_witness :
    ∃ v, gpuVram [("GPU", PyVal.pstr "big"), ("VRAM (GB)", PyVal.pint 80)] 0 = .ok v ∧
      (3 : ℚ) ≤ v :=
  c2_amended_vram_lower_bound [("kv_cache_fp16_gb", PyVal.pfloat 3)]
    [[("GPU", PyVal.pstr "big"), ("VRAM (GB)", PyVal.pint 80)]] 2 1000 none false
    { recommended := [("GPU", PyVal.pstr "big"), ("VRAM (GB)", PyVal.pint 80)],
      alternatives := [], required_vram := 3, kv_cache_fp16_gb := 3,
      users := 2, latency := 1000 } rfl

/-- C3 counterexample: an empty catalog does not yield an empty,
non-error result — the code returns the error dict
`error: No suitable GPU found.`, and the HTTP layer turns it into a 400
exception.  (Model: stored KV 2 GiB/user so the KV stage succeeds.) -/
theorem c3_counterexample :
    get_gpu_recommendation [("kv_cache_fp16_gb", PyVal.pfloat 2)] [] 5 1000 none false
      = .ok (.error "No suitable GPU found.") ∧
    recommend_gpu_result (.error "No suitable GPU found.")
      = .error (400, "No suitable GPU found.") :=
  ⟨rfl, rfl⟩

/-- C3 (amended): whenever the KV stage yields a nonzero value and no
catalog device passes the VRAM filter (including an empty catalog),
`get_gpu_recommendation` returns the error dict
`error: No suitable GPU found.` — an error outcome, not an empty result —
and `recommend_gpu` surfaces it as an HTTP 400 exception. -/
theorem c3_amended_error_result (model_info : Entries) (gpus : List Gpu)
    (users : ℤ) (latency : ℚ) (ov : Option PyVal) (frc : Bool) (kv : ℚ)
    (hkv : get_effective_kv_cache model_info none 2 users ov frc = .ok (some kv))
    (hkv0 : kv ≠ 0)
    (helig : filterEligible gpus kv = .ok []) :
    get_gpu_recommendation model_info gpus users latency ov frc
      = .ok (.error "No suitable GPU found.") ∧
    recommend_gpu_result (RecResult.error "No suitable GPU found.")
      = .error (400, "No suitable GPU found.") := by
  refine ⟨?_, rfl⟩
  unfold get_gpu_recommendation
  rw [hkv]
  have step : (if kv = 0 then
      Except.ok (RecResult.error "Missing or invalid KV cache size for model.")
      else
        match filterEligible gpus kv with
        | .error e => .error e
        | .ok eligible =>
          if eligible.isEmpty then .ok (.error "No suitable GPU found.")
          else
            match sortGpus eligible with
            | .error e => .error e
            | .ok sorted => pickRecommendation sorted kv users latency)
      = .ok (.error "No suitable GPU found.") := by
    rw [if_neg hkv0, helig]
    rfl
  exact step

/-- C3 witness: a catalog whose only device (1 GiB) is below the 2 GiB
KV demand — the selector returns the `No suitable GPU found.` error dict
and the endpoint raises 400. -/
theorem c3_witness :
    get_gpu_recommendation [("kv_cache_fp16_gb", PyVal.pfloat 2)]
        [[("VRAM (GB)", PyVal.pint 1)]] 3 800 none false
      = .ok (.error "No suitable GPU found.") ∧
    recommend_gpu_result (RecResult.error "No suitable GPU found.")
      = .error (400, "No suitable GPU found.") :=
  c3_amended_error_result [("kv_cache_fp16_gb", PyVal.pfloat 2)]
    [[("VRAM (GB)", PyVal.pint 1)]] 3 800 none false 2 rfl (by norm_num) rfl

/-- C4 code bug: with a model record that has no stored KV values (all
optional fields missing) and no override, `get_effective_kv_cache` falls
through to its estimation call — which passes the unexpected keyword
argument `users` to `estimate_kv_cache_gb` and raises `TypeError` instead
of returning the `None` sentinel the spec promises.  The forced-recompute
branch raises the same way. -/
theorem c4_code_bug_eval :
    get_effective_kv_cache [] none 2 1 none false = .error typeErrorUsers ∧
    get_effective_kv_cache [("hidden_size", PyVal.pint 4096)] none 2 1 none true
      = .error typeErrorUsers :=
  ⟨rfl, rfl⟩

/-- C5 code bug: a stored (precomputed) KV value does take precedence
when no recompute is forced, but forcing a recompute does not estimate
the footprint anew from the architecture fields — it raises `TypeError`
(unexpected keyword argument `users`), even when the architecture fields
needed by the estimator are all present. -/
theorem c5_code_bug_eval :
    get_effective_kv_cache
        [("kv_cache_fp16_gb", PyVal.pfloat 3), ("num_hidden_layers", PyVal.pint 32),
         ("num_attention_heads", PyVal.pint 32), ("hidden_size", PyVal.pint 4096)]
        none 2 1 none false = .ok (some 3) ∧
    get_effective_kv_cache
        [("kv_cache_fp16_gb", PyVal.pfloat 3), ("num_hidden_layers", PyVal.pint 32),
         ("num_attention_heads", PyVal.pint 32), ("hidden_size", PyVal.pint 4096)]
        none 2 1 none true = .error typeErrorUsers :=
  ⟨rfl, rfl⟩

/-- GPU record with only a VRAM field, used by the C9 theorems. -/
def c9gpu (n : ℤ) : Gpu := [("VRAM (GB)", PyVal.pint n)]

/-- C9 counterexample: with 7 eligible devices the alternatives list has
6 entries — `alternatives = eligible_gpus[1:]` with no cap, exceeding the
claimed bound of 4-5. -/
theorem c9_counterexample :
    get_gpu_recommendation [] (List.map c9gpu [10, 20, 30, 40, 50, 60, 70]) 1 500
        (some (PyVal.pfloat 2)) false
      = .ok (.ok { recommended := c9gpu 10,
                   alternatives := List.map c9gpu [20, 30, 40, 50, 60, 70],
                   required_vram := 2, kv_cache_fp16_gb := 2,
                   users := 1, latency := 500 }) ∧
    5 < (List.map c9gpu [20, 30, 40, 50, 60, 70]).length :=
  ⟨rfl, by simp⟩

/-- C9 (amended): for every successful recommendation over a catalog
without duplicate entries, the alternatives exclude the recommended
device and contain no duplicates; the alternatives are exactly the
remaining eligible devices (recommended plus alternatives permute the
whole eligible list) — there is no length cap. -/
theorem c9_amended_alternatives (model_info : Entries) (gpus : List Gpu)
    (users : ℤ) (latency : ℚ) (ov : Option PyVal) (frc : Bool) (out : RecOutput)
    (h : get_gpu_recommendation model_info gpus users latency ov frc = .ok (.ok out))
    (hnd : gpus.Nodup) :
    out.recommended ∉ out.alternatives ∧ out.alternatives.Nodup ∧
    ∃ eligible, filterEligible gpus out.required_vram = .ok eligible ∧
      (out.recommended :: out.alternatives).Perm eligible := by
  obtain ⟨elig, srt, helig, hsort, hcons, -, -⟩ := get_gpu_recommendation_ok_inv h
  have hsub := filterEligible_sublist helig
  have hndE : elig.Nodup := hnd.sublist hsub
  have hperm := sortGpus_perm hsort
  have hndS : srt.Nodup := hperm.nodup_iff.mpr hndE
  rw [hcons] at hndS hperm
  obtain ⟨hnotmem, hndA⟩ := List.nodup_cons.mp hndS
  exact ⟨hnotmem, hndA, elig, helig, hperm⟩

/-- C9 witness: catalog of two distinct devices (10 and 20 GiB), KV
override 2 — the recommended 10-GiB device is not among the alternatives,
the alternatives have no duplicates, and recommended plus alternatives
permute the eligible list. -/
theorem c9_witness :
    c9gpu 10 ∉ [c9gpu 20] ∧ ([c9gpu 20] : List Gpu).Nodup ∧
    ∃ eligible, filterEligible [c9gpu 10, c9gpu 20] 2 = .ok eligible ∧
      ([c9gpu 10, c9gpu 20] : List Gpu).Perm eligible :=
  c9_amended_alternatives [] [c9gpu 10, c9gpu 20] 1 500 (some (PyVal.pfloat 2)) false
    { recommended := c9gpu 10, alternatives := [c9gpu 20],
      required_vram := 2, kv_cache_fp16_gb := 2, users := 1, latency := 500 }
    rfl (by simp [c9gpu])

/-- C1: over the spec-modelled translator (absent from `src/`, see
`effective_concurrency`): with a positive base latency, the call fails
with the invalid-target error exactly when `latency_target_ms / 1000` is
strictly below the base latency (so at exact equality it succeeds), and
on success `requests_per_device = max(1, floor(target_s / base_latency_s))`
with `required_device_count = ceil(users / requests_per_device)`. -/
theorem c1_effective_concurrency_spec (base_latency_s latency_target_ms : ℚ)
    (users : ℤ) (hb : 0 < base_latency_s) :
    (effective_concurrency base_latency_s latency_target_ms = .error "invalid-target"
      ↔ latency_target_ms / 1000 < base_latency_s) ∧
    (latency_target_ms / 1000 = base_latency_s →
      effective_concurrency base_latency_s latency_target_ms = .ok 1) ∧
    (base_latency_s ≤ latency_target_ms / 1000 →
      effective_concurrency base_latency_s latency_target_ms
        = .ok (max 1 ⌊(latency_target_ms / 1000) / base_latency_s⌋) ∧
      required_device_count users (max 1 ⌊(latency_target_ms / 1000) / base_latency_s⌋)
        = ⌈(users : ℚ) / ((max 1 ⌊(latency_target_ms / 1000) / base_latency_s⌋ : ℤ) : ℚ)⌉) := by
  refine ⟨⟨fun h => ?_, fun h => ?_⟩, fun heq => ?_, fun hle => ⟨?_, rfl⟩⟩
  · by_contra hlt
    push_neg at hlt
    simp only [effective_concurrency, if_neg (not_lt.mpr hlt)] at h
    exact Except.noConfusion h
  · simp only [effective_concurrency, if_pos h]
  · have hnl : ¬(latency_target_ms / 1000 < base_latency_s) := by
      rw [heq]
      exact lt_irrefl _
    simp only [effective_concurrency, if_neg hnl]
    rw [heq, div_self (ne_of_gt hb)]
    norm_num
  · simp only [effective_concurrency, if_neg (not_lt.mpr hle)]

/-- C1 witness, on the spec's own examples: base latency 0.5 s with a
400 ms target is invalid-target; with a 2000 ms target one device serves
4 requests and 10 users need ceil(10/4) = 3 devices. -/
theorem c1_witness :
    effective_concurrency (1 / 2) 400 = .error "invalid-target" ∧
    effective_concurrency (1 / 2) 2000 = .ok (max 1 ⌊((2000 : ℚ) / 1000) / (1 / 2)⌋) ∧
    max 1 ⌊((2000 : ℚ) / 1000) / ((1 : ℚ) / 2)⌋ = 4 ∧
    required_device_count 10 4 = 3 := by
  refine ⟨(c1_effective_concurrency_spec (1 / 2) 400 10 (by norm_num)).1.mpr (by norm_num),
    ((c1_effective_concurrency_spec (1 / 2) 2000 10 (by norm_num)).2.2 (by norm_num)).1, ?_, ?_⟩
  · norm_num
  · have h := ((c1_effective_concurrency_spec (1 / 2) 2000 10 (by norm_num)).2.2 (by norm_num)).2
    rw [show (max 1 ⌊((2000 : ℚ) / 1000) / ((1 : ℚ) / 2)⌋ : ℤ) = 4 from by norm_num] at h
    rw [h, Int.ceil_eq_iff]
    norm_num

/-- Does `pat` occur at the start of `s`? -/
def subStart : List Char → List Char → Bool
  | [], _ => true
  | _ :: _, [] => false
  | p :: ps, c :: cs => p = c && subStart ps cs

/-- Does `pat` occur anywhere in `s` (Python `pat in s` on strings)? -/
def containsSub : List Char → List Char → Bool
  | [], pat => pat.isEmpty
  | c :: rest, pat => subStart pat (c :: rest) || containsSub rest pat

/-- Python `pat in s` for strings. -/
def strContains (s pat : String) : Bool := containsSub s.toList pat.toList

/-- ASCII lower-casing of one character (`str.lower` is full Unicode in
Python; the dtype strings the engine inspects are ASCII). -/
def asciiLower (c : Char) : Char :=
  if 'A' ≤ c ∧ c ≤ 'Z' then Char.ofNat (c.toNat + 32) else c

/-- ASCII `str.lower()`. -/
def lowerStr (s : String) : String := String.mk (s.toList.map asciiLower)

/-- Python `str(v)` as far as the engine consumes it (only ever searched
for the substrings "float32"/"fp32").  Container reprs drop Python's
quoting of keys; no claim inspects `str()` of a container. -/
def pyStr : PyVal → String
  | .pnone => "None"
  | .pbool true => "True"
  | .pbool false => "False"
  | .pint n => toString n
  | .pfloat q => toString q
  | .pspecial s => s
  | .pstr s => s
  | .pdict es => "\x7b" ++ String.intercalate ", " (es.map fun kv => kv.1) ++ "\x7d"
  | .plist vs => "[" ++ String.intercalate ", " (vs.map fun _ => "...") ++ "]"

/-- Apply `str(x)` to an optional lookup result (`str(None) = "None"`). -/
def pyStrOfGet (o : Option PyVal) : String :=
  match o with
  | none => "None"
  | some v => pyStr v

/-- Hex digit value, for JSON `\u` escapes. -/
def hexVal (c : Char) : Option ℕ :=
  if '0' ≤ c ∧ c ≤ '9' then some (c.toNat - '0'.toNat)
  else if 'a' ≤ c ∧ c ≤ 'f' then some (c.toNat - 'a'.toNat + 10)
  else if 'A' ≤ c ∧ c ≤ 'F' then some (c.toNat - 'A'.toNat + 10)
  else none

/-- Skip JSON whitespace. -/
def jsonWs : List Char → List Char
  | c :: rest =>
    if c = ' ' ∨ c = '\t' ∨ c = '\n' ∨ c = '\r' then jsonWs rest else c :: rest
  | [] => []

/-- JSON string body after the opening quote; returns the characters and
the rest.  A `\u` escape of an invalid scalar value falls back to the
default character (Python would combine surrogate pairs; no claim
inspects such strings). -/
def parseJsonStringAux : List Char → Option (List Char × List Char)
  | [] => none
  | '"' :: rest => some ([], rest)
  | '\\' :: e :: rest =>
    if e = 'u' then
      match rest with
      | h1 :: h2 :: h3 :: h4 :: rest2 =>
        match hexVal h1, hexVal h2, hexVal h3, hexVal h4 with
        | some a, some b, some c, some d =>
          (parseJsonStringAux rest2).map fun p =>
            (Char.ofNat (((a * 16 + b) * 16 + c) * 16 + d) :: p.1, p.2)
        | _, _, _, _ => none
      | _ => none
    else
      match
        (if e = '"' then some '"'
         else if e = '\\' then some '\\'
         else if e = '/' then some '/'
         else if e = 'b' then some (Char.ofNat 8)
         else if e = 'f' then some (Char.ofNat 12)
         else if e = 'n' then some '\n'
         else if e = 'r' then some '\r'
         else if e = 't' then some '\t'
         else none) with
      | some c => (parseJsonStringAux rest).map fun p => (c :: p.1, p.2)
      | none => none
  | c :: rest => (parseJsonStringAux rest).map fun p => (c :: p.1, p.2)

/-- JSON number at the head of the input (slightly more permissive than
strict JSON — leading zeros, a leading plus, bare fractions — which only
shrinks, never grows, the set of strings the parse-failure theorem
quantifies over).  Plain integers become `pint`, anything with a fraction
or exponent becomes an exact `pfloat` (Python would round to a double). -/
def parseJsonNumber (cs : List Char) : Option (PyVal × List Char) :=
  let stripSign : Bool × List Char :=
    match cs with
    | '-' :: rest => (true, rest)
    | '+' :: rest => (false, rest)
    | _ => (false, cs)
  let neg := stripSign.1
  let cs1 := stripSign.2
  let ipr := takeDigits cs1
  let ip := ipr.1
  match ipr.2 with
  | '.' :: cs3 =>
    let fpr := takeDigits cs3
    let fp := fpr.1
    if ip.isEmpty ∧ fp.isEmpty then none
    else
      match parseExpPart fpr.2 with
      | some (e, rest) =>
        let mant : ℚ := (digitsToNat 0 (ip ++ fp) : ℚ)
        let q := scalePow10 mant (e - fp.length)
        some (.pfloat (if neg then -q else q), rest)
      | none => none
  | cs2 =>
    if ip.isEmpty then none
    else
      match cs2 with
      | c :: _ =>
        if c = 'e' ∨ c = 'E' then
          match parseExpPart cs2 with
          | some (e, rest) =>
            let q := scalePow10 (digitsToNat 0 ip : ℚ) e
            some (.pfloat (if neg then -q else q), rest)
          | none => none
        else
          some (.pint (if neg then -(digitsToNat 0 ip : ℤ) else (digitsToNat 0 ip : ℤ)), cs2)
      | [] =>
        some (.pint (if neg then -(digitsToNat 0 ip : ℤ) else (digitsToNat 0 ip : ℤ)), [])

mutual

/-- One JSON value at the head of the input (fuel-bounded recursion).
Python's `json.loads` extensions `NaN` / `Infinity` / `-Infinity` parse
to non-finite floats. -/
def parseJsonValue : ℕ → List Char → Option (PyVal × List Char)
  | 0, _ => none
  | fuel + 1, cs =>
    match jsonWs cs with
    | 'n' :: 'u' :: 'l' :: 'l' :: rest => some (.pnone, rest)
    | 't' :: 'r' :: 'u' :: 'e' :: rest => some (.pbool true, rest)
    | 'f' :: 'a' :: 'l' :: 's' :: 'e' :: rest => some (.pbool false, rest)
    | 'N' :: 'a' :: 'N' :: rest => some (.pspecial "nan", rest)
    | 'I' :: 'n' :: 'f' :: 'i' :: 'n' :: 'i' :: 't' :: 'y' :: rest =>
      some (.pspecial "inf", rest)
    | '-' :: 'I' :: 'n' :: 'f' :: 'i' :: 'n' :: 'i' :: 't' :: 'y' :: rest =>
      some (.pspecial "-inf", rest)
    | '"' :: rest =>
      match parseJsonStringAux rest with
      | some (chars, rest2) => some (.pstr (String.mk chars), rest2)
      | none => none
    | c :: rest =>
      if c = '[' then
        match parseJsonArrayItems fuel rest with
        | some (vs, rest2) => some (.plist vs, rest2)
        | none => none
      else if c = Char.ofNat 123 then
        match parseJsonObjectItems fuel rest with
        | some (es, rest2) => some (.pdict es, rest2)
        | none => none
      else parseJsonNumber (c :: rest)
    | [] => none

/-- The items of a JSON array after the opening bracket. -/
def parseJsonArrayItems : ℕ → List Char → Option (List PyVal × List Char)
  | 0, _ => none
  | fuel + 1, cs =>
    match jsonWs cs with
    | ']' :: rest => some ([], rest)
    | cs2 =>
      match parseJsonValue fuel cs2 with
      | some (v, rest) =>
        match jsonWs rest with
        | ',' :: rest2 =>
          match parseJsonArrayItems fuel rest2 with
          | some (vs, rest3) => some (v :: vs, rest3)
          | none => none
        | ']' :: rest2 => some ([v], rest2)
        | _ => none
      | none => none

/-- The items of a JSON object after the opening brace. -/
def parseJsonObjectItems : ℕ → List Char → Option (Entries × List Char)
  | 0, _ => none
  | fuel + 1, cs =>
    match jsonWs cs with
    | c :: rest =>
      if c = Char.ofNat 125 then some ([], rest)
      else if c = '"' then
        match parseJsonStringAux rest with
        | some (kchars, rest2) =>
          match jsonWs rest2 with
          | ':' :: rest3 =>
            match parseJsonValue fuel rest3 with
            | some (v, rest4) =>
              match jsonWs rest4 with
              | ',' :: rest5 =>
                match parseJsonObjectItems fuel rest5 with
                | some (es, rest6) => some ((String.mk kchars, v) :: es, rest6)
                | none => none
              | c2 :: rest5 =>
                if c2 = Char.ofNat 125 then
                  some ([(String.mk kchars, v)], rest5)
                else none
              | [] => none
            | none => none
          | _ => none
        | none => none
      else none
    | [] => none

end

/-- Embedding of `json.loads(s)`, producing a `PyVal`: one value, with
only whitespace allowed after it. -/
def jsonParse (s : String) : Option PyVal :=
  match parseJsonValue (2 * s.length + 2) s.toList with
  | some (v, rest) => if (jsonWs rest).isEmpty then some v else none
  | none => none

/-- First hit among alternative key names. -/
def lookupAlts (es : Entries) (keys : List String) : Option PyVal :=
  keys.findSome? fun k => List.lookup k es

/-- The `_get(key, *alts)` helper of `estimate_weights_gib`: prefer
`text_config`, then the root config; within each, the main key before the
alternatives. -/
def getKey (txt cfg : Entries) (key : String) (alts : List String) : Option PyVal :=
  match List.lookup key txt with
  | some v => some v
  | none =>
    match lookupAlts txt alts with
    | some v => some v
    | none =>
      match List.lookup key cfg with
      | some v => some v
      | none => lookupAlts cfg alts

/-- The `_num` helper: `float(x)` guarded by `isfinite`, `None` on
failure (also when `_get` found nothing: `float(None)` raises). -/
def pyNum? (o : Option PyVal) : Option ℚ :=
  match o with
  | some v => pyFloat? v
  | none => none

/-- The lookup `cfg.get("text_config", ...) or ...` with empty-dict default: a dict is used as-is, any falsy
value becomes the empty dict.  A truthy non-dict value is modelled as an
immediate `TypeError` (in Python the error would only surface on the
first `key in txt` / `txt[key]` that hits; no claim exercises such
configs). -/
def getTxt (cfg : Entries) : Except String Entries :=
  match List.lookup "text_config" cfg with
  | none => .ok []
  | some (.pdict es) => .ok es
  | some v => if pyFalsy v then .ok [] else .error "TypeError: text_config is not a mapping"

/-- The numeric fields `estimate_weights_gib` resolves from a config
(source locals `d, L, v, i`, the dtype string, and the MoE fields). -/
structure WFields where
  d : ℚ
  L : ℚ
  v : ℚ
  i : ℚ
  dtype : String
  num_experts : Option ℚ
  num_experts_per_tok : ℚ
  moe_intermediate : ℚ
  shared_mlp_i : ℚ
  deriving DecidableEq

/-- Field resolution of `estimate_weights_gib` on a config dict:
`hidden_size`/`num_hidden_layers` (with their alternative names) must be
present, nonzero numbers (Python truthiness: `not (d and L and v)`);
`vocab_size` defaults to 256000; `intermediate_size` and the optional MoE
fields default to 0 (`or 0.0`). -/
def resolveWeightFields (cfg : Entries) : Except String (Option WFields) :=
  match getTxt cfg with
  | .error e => .error e
  | .ok txt =>
    let d? := pyNum? (getKey txt cfg "hidden_size" ["n_embd", "d_model"])
    let L? := pyNum? (getKey txt cfg "num_hidden_layers" ["num_layers", "n_layer"])
    let v0? := pyNum? (getKey txt cfg "vocab_size" ["vocab_sz"])
    let v : ℚ := v0?.getD 256000
    let i : ℚ := (pyNum? (getKey txt cfg "intermediate_size" ["ffn_hidden_size", "mlp_dim"])).getD 0
    match d?, L? with
    | some d, some L =>
      if d = 0 ∨ L = 0 ∨ v = 0 then .ok none
      else
        .ok (some
          { d := d, L := L, v := v, i := i,
            dtype := lowerStr (pyStrOfGet (getKey txt cfg "torch_dtype" [])),
            num_experts := pyNum? (getKey txt cfg "num_experts" []),
            num_experts_per_tok :=
              (pyNum? (getKey txt cfg "num_experts_per_tok" ["top_k", "k"])).getD 0,
            moe_intermediate := (pyNum? (getKey txt cfg "moe_intermediate_size" [])).getD 0,
            shared_mlp_i :=
              (pyNum? (getKey txt cfg "shared_expert_intermediate_size" [])).getD 0 })
    | _, _ => .ok none

/-- dtype to bytes per parameter: 4 for an fp32 dtype string, else 2. -/
def bppOf (dtype : String) : ℚ :=
  if strContains dtype "float32" || strContains dtype "fp32" then 4 else 2

/-- The dense parameter-count baseline: max of the per-layer MLP formula
and the attention-heavy scaling formula, each plus embeddings. -/
def denseParamsOf (f : WFields) : ℚ :=
  max (f.L * (4 * f.d * f.d + 3 * f.d * f.i) + f.v * f.d)
      (12 * f.d * f.d * f.L + f.v * f.d)

/-- The flag `is_moe = bool(num_experts and num_experts > 0)`. -/
def isMoe (f : WFields) : Bool :=
  match f.num_experts with
  | some n => decide (0 < n)
  | none => false

/-- Total parameter count: the MoE branch (attention + shared MLP +
expert MLPs + embeddings, floored by the dense baseline) or the dense
baseline.  `load_all` is the `MOE_LOAD_ALL_EXPERTS` environment toggle
made an explicit parameter (source default: unset, i.e. `true`). -/
def totalParamsOf (f : WFields) (load_all : Bool) : ℚ :=
  if isMoe f then
    max ((f.L * (4 * f.d * f.d)) +
         (if 0 < f.shared_mlp_i then f.L * (3 * f.d * f.shared_mlp_i) else 0) +
         (if load_all || f.num_experts_per_tok = 0 then
            f.L * (f.num_experts.getD 0 *
              (3 * f.d * (if 0 < f.moe_intermediate then f.moe_intermediate else f.i)))
          else
            f.L * (f.num_experts_per_tok *
              (3 * f.d * (if 0 < f.moe_intermediate then f.moe_intermediate else f.i)))) +
         f.v * f.d)
        (denseParamsOf f)
  else denseParamsOf f

/-- Python `round(x, 2)` (ties rounded up instead of to even; no claim
depends on a tie). -/
def pyRound2 (q : ℚ) : ℚ := (⌊q * 100 + 1 / 2⌋ : ℚ) / 100

/-- GiB estimate from resolved fields:
`round(total_params * bpp * (1 + overhead_frac) / 1024^3, 2)`. -/
def weightsGibOf (f : WFields) (overhead_frac : ℚ) (load_all : Bool) : ℚ :=
  pyRound2 (totalParamsOf f load_all * bppOf f.dtype * (1 + overhead_frac) / 1024 ^ 3)

/-- Run `estimate_weights_gib` on an already-parsed config dict. -/
def weightsFromEntries (cfg : Entries) (overhead_frac : ℚ) (load_all : Bool) :
    Except String (Option ℚ) :=
  match resolveWeightFields cfg with
  | .error e => .error e
  | .ok none => .ok none
  | .ok (some f) => .ok (some (weightsGibOf f overhead_frac load_all))

/-- Embedding of `src/sizing_logic.py::estimate_weights_gib`.  A string input is
parsed as JSON (`except: return None`); a parse result that is not a
dict raises `AttributeError` at `cfg.get`; any input that is neither a
dict nor a string returns `None`. -/
def estimate_weights_gib (cfg_or_json : PyVal) (overhead_frac : ℚ) (load_all : Bool) :
    Except String (Option ℚ) :=
  match cfg_or_json with
  | .pstr s =>
    match jsonParse s with
    | none => .ok none
    | some (.pdict es) => weightsFromEntries es overhead_frac load_all
    | some _ => .error "AttributeError: parsed JSON value is not a dict"
  | .pdict es => weightsFromEntries es overhead_frac load_all
  | _ => .ok none

/-- Monotonicity of `pyRound2`. -/
theorem pyRound2_mono {a b : ℚ} (h : a ≤ b) : pyRound2 a ≤ pyRound2 b := by
  unfold pyRound2
  have hf : ⌊a * 100 + 1 / 2⌋ ≤ ⌊b * 100 + 1 / 2⌋ :=
    Int.floor_le_floor (by linarith)
  have hc : ((⌊a * 100 + 1 / 2⌋ : ℤ) : ℚ) ≤ ((⌊b * 100 + 1 / 2⌋ : ℤ) : ℚ) := by
    exact_mod_cast hf
  linarith

/-- The MoE total never drops below the dense baseline (the source takes
`max(total_params, dense_params)`). -/
theorem totalParams_ge_dense (f : WFields) (load_all : Bool) :
    denseParamsOf f ≤ totalParamsOf f load_all := by
  unfold totalParamsOf
  split
  · exact le_max_right _ _
  · exact le_rfl

/-- The byte-per-parameter factor is positive (2 or 4). -/
theorem bppOf_pos (s : String) : 0 < bppOf s := by
  unfold bppOf
  split <;> norm_num

/-- C8: for every config whose fields resolve with mixture-of-experts
enabled (expert count > 0) and a nonnegative overhead fraction, the
weight estimate `estimate_weights_gib` returns is at least the
dense-baseline estimate computed from the same resolved hidden size,
layer count, vocabulary size (and intermediate size and dtype). -/
theorem c8_moe_ge_dense (cfg : Entries) (overhead_frac : ℚ) (load_all : Bool)
    (f : WFields) (g : ℚ)
    (hres : resolveWeightFields cfg = .ok (some f))
    (hmoe : isMoe f = true)
    (hov : 0 ≤ overhead_frac)
    (hval : estimate_weights_gib (.pdict cfg) overhead_frac load_all = .ok (some g)) :
    pyRound2 (denseParamsOf f * bppOf f.dtype * (1 + overhead_frac) / 1024 ^ 3) ≤ g := by
  have hg : g = weightsGibOf f overhead_frac load_all := by
    have h1 : weightsFromEntries cfg overhead_frac load_all = .ok (some g) := hval
    unfold weightsFromEntries at h1
    rw [hres] at h1
    exact (Option.some.inj (Except.ok.inj h1)).symm
  subst hg
  unfold weightsGibOf
  apply pyRound2_mono
  have hb : (0 : ℚ) ≤ bppOf f.dtype := (bppOf_pos f.dtype).le
  have h2 : (0 : ℚ) ≤ 1 + overhead_frac := by linarith
  have h3 : denseParamsOf f * bppOf f.dtype * (1 + overhead_frac)
      ≤ totalParamsOf f load_all * bppOf f.dtype * (1 + overhead_frac) :=
    mul_le_mul_of_nonneg_right
      (mul_le_mul_of_nonneg_right (totalParams_ge_dense f load_all) hb) h2
  have h4 : (0 : ℚ) < 1024 ^ 3 := by norm_num
  exact (div_le_div_iff_of_pos_right h4).mpr h3

/-- Concrete MoE config for the C8 witness. -/
def c8cfg : Entries :=
  [("hidden_size", PyVal.pint 1024), ("num_hidden_layers", PyVal.pint 2),
   ("vocab_size", PyVal.pint 1000), ("num_experts", PyVal.pint 8),
   ("moe_intermediate_size", PyVal.pint 4096)]

/-- The fields `c8cfg` resolves to. -/
def c8fields : WFields :=
  { d := 1024, L := 2, v := 1000, i := 0, dtype := "none",
    num_experts := some 8, num_experts_per_tok := 0,
    moe_intermediate := 4096, shared_mlp_i := 0 }

/-- C8 witness: on `c8cfg` (8 experts, MoE intermediate 4096) at the
default 10% overhead, the MoE estimate dominates the dense baseline. -/
theorem c8_witness :
    resolveWeightFields c8cfg = .ok (some c8fields) ∧
    isMoe c8fields = true ∧
    estimate_weights_gib (.pdict c8cfg) (1 / 10) true
      = .ok (some (weightsGibOf c8fields (1 / 10) true)) ∧
    pyRound2 (denseParamsOf c8fields * bppOf c8fields.dtype * (1 + 1 / 10) / 1024 ^ 3)
      ≤ weightsGibOf c8fields (1 / 10) true := by
  have hres : resolveWeightFields c8cfg = .ok (some c8fields) := by rfl
  have hval : estimate_weights_gib (.pdict c8cfg) (1 / 10) true
      = .ok (some (weightsGibOf c8fields (1 / 10) true)) := by
    show weightsFromEntries c8cfg (1 / 10) true = _
    unfold weightsFromEntries
    rw [hres]
  exact ⟨hres, rfl, hval,
    c8_moe_ge_dense c8cfg (1 / 10) true c8fields _ hres rfl (by norm_num) hval⟩

/-- C10: the weight estimator returns the `None` sentinel, without
raising, for every input that is neither a dict nor a string, and for
every string that does not parse as JSON. -/
theorem c10_weights_input_handling (v : PyVal) (s : String) (overhead_frac : ℚ)
    (load_all : Bool) :
    ((∀ es, v ≠ PyVal.pdict es) → (∀ t, v ≠ PyVal.pstr t) →
      estimate_weights_gib v overhead_frac load_all = .ok none) ∧
    (jsonParse s = none →
      estimate_weights_gib (PyVal.pstr s) overhead_frac load_all = .ok none) := by
  constructor
  · intro hnd hns
    cases v with
    | pdict es => exact absurd rfl (hnd es)
    | pstr t => exact absurd rfl (hns t)
    | pnone => rfl
    | pbool b => rfl
    | pint n => rfl
    | pfloat q => rfl
    | pspecial t => rfl
    | plist vs => rfl
  · intro hp
    show (match jsonParse s with
      | none => Except.ok none
      | some (.pdict es) => weightsFromEntries es overhead_frac load_all
      | some _ => Except.error "AttributeError: parsed JSON value is not a dict") = .ok none
    rw [hp]

/-- C10 witness: an int input and a non-JSON string both give the `None`
sentinel without an exception. -/
theorem c10_witness :
    estimate_weights_gib (PyVal.pint 7) (1 / 10) true = .ok none ∧
    estimate_weights_gib (PyVal.pstr "not json") (1 / 10) true = .ok none :=
  ⟨(c10_weights_input_handling (PyVal.pint 7) "x" (1 / 10) true).1
      (fun es h => PyVal.noConfusion h) (fun t h => PyVal.noConfusion h),
   (c10_weights_input_handling (PyVal.pint 7) "not json" (1 / 10) true).2 rfl⟩
